import Mathlib

/-!
Shallow embedding of the logging core of the repository:
`src/elk-logger.js` and `src/response-logger-middleware.js`.

JavaScript objects are modelled as association lists of string keys and
`JSVal` values, with JavaScript object-literal semantics: a later entry for
a key shadows an earlier one (last write wins), which is exactly what the
spread `{ errorType, ...errorData }` does in the source.  JavaScript
timestamps are epoch milliseconds (`Int`), with the invalid-date `NaN`
state modelled as `Option.none`.  The date-field extraction performed by
the ECMAScript `Date` getters is modelled by the standard civil-calendar
algorithm on days since the Unix epoch, with the configured time zone
taken as UTC.
-/

/-- A JavaScript value, as far as the log payloads of this repository
need: strings, (integer) numbers, `null`, and nested plain objects. -/
inductive JSVal where
  | str (s : String)
  | num (n : Int)
  | nullv
  | obj (fields : List (String × JSVal))

/-- Property lookup on a JavaScript object literal built from an
association list: the LAST entry for a key wins, matching the semantics of
duplicate keys and spreads in an object literal. -/
def getProp : List (String × JSVal) → String → Option JSVal
  | [], _ => none
  | (k, v) :: rest, key =>
      match getProp rest key with
      | some w => some w
      | none => if k = key then some v else none

/-- The four pino severities used by the logger, ordered
debug < info < warn < error. -/
inductive Severity where
  | debug
  | info
  | warn
  | error
deriving DecidableEq, Repr

/-- One call into the shared `elkLogger` instance: a severity and the
merged structured object passed to `elkLogger.<severity>(...)`. -/
structure LogCall where
  severity : Severity
  data : List (String × JSVal)

/-- `logError` from `src/elk-logger.js`: logs at error severity the object
`{ errorType, ...errorData }` — the category tag first, then the payload
spread after it. -/
def logError (errorType : String) (errorData : List (String × JSVal)) : LogCall :=
  { severity := Severity.error
    data := ("errorType", JSVal.str errorType) :: errorData }

/-- `logWarn` from `src/elk-logger.js`: logs at warn severity the object
`{ warningType, ...warningData }`. -/
def logWarn (warningType : String) (warningData : List (String × JSVal)) : LogCall :=
  { severity := Severity.warn
    data := ("warningType", JSVal.str warningType) :: warningData }

/-- `logInfo` from `src/elk-logger.js`: logs at info severity the object
`{ infoType, ...infoData }`. -/
def logInfo (infoType : String) (infoData : List (String × JSVal)) : LogCall :=
  { severity := Severity.info
    data := ("infoType", JSVal.str infoType) :: infoData }

/-- `logDebug` from `src/elk-logger.js`: logs at debug severity the object
`{ debugType, ...debugData }`. -/
def logDebug (debugType : String) (debugData : List (String × JSVal)) : LogCall :=
  { severity := Severity.debug
    data := ("debugType", JSVal.str debugType) :: debugData }

/-- The property names a plain object literal inherits from
`Object.prototype`: the standard methods and the Annex B accessors.
Their values are functions (or, for `__proto__`, `Object.prototype`
itself), so every one of them is truthy and none is a severity string. -/
def OBJECT_PROTOTYPE_KEYS : List String :=
  ["constructor", "hasOwnProperty", "isPrototypeOf", "propertyIsEnumerable",
   "toLocaleString", "toString", "valueOf", "__proto__",
   "__defineGetter__", "__defineSetter__", "__lookupGetter__", "__lookupSetter__"]

/-- The result of the JavaScript property access `LOG_LEVELS[key]`: an
own data property holding a level string, a truthy non-string value
inherited from `Object.prototype` via the prototype chain, or
`undefined`. -/
inductive JSLookup where
  | strVal (s : String)
  | inherited
  | undef
deriving DecidableEq, Repr

/-- `LOG_LEVELS` from `src/elk-logger.js`: the object literal
`{development: debug, test: info, staging: warn, production: error}`
read by bracket lookup.  A key outside the four own entries still hits
the prototype chain: for a property name of `Object.prototype` the access
yields that truthy inherited value; only otherwise is it `undefined`. -/
def LOG_LEVELS (environment : String) : JSLookup :=
  if environment = "development" then JSLookup.strVal "debug"
  else if environment = "test" then JSLookup.strVal "info"
  else if environment = "staging" then JSLookup.strVal "warn"
  else if environment = "production" then JSLookup.strVal "error"
  else if environment ∈ OBJECT_PROTOTYPE_KEYS then JSLookup.inherited
  else JSLookup.undef

/-- What `logLevel` ends up holding: a level string, or the truthy
non-string value a prototype-chain hit smuggles past the `||`. -/
inductive LogLevelResult where
  | level (s : String)
  | nonStringValue
deriving DecidableEq, Repr

/-- `logLevel` from `src/elk-logger.js`, as a function of the
`APPLICATION_ENV` environment variable (which may be unset, hence
`Option`): `LOG_LEVELS[env] || "info"`.  An unset variable looks up the
key "undefined", which is neither an own entry nor a prototype property,
so it falls back to "info".  The own values are non-empty strings and the
inherited values are truthy, so `||` replaces exactly the `undefined`
result. -/
def logLevelFor (applicationEnv : Option String) : LogLevelResult :=
  match applicationEnv with
  | none => LogLevelResult.level "info"
  | some environment =>
      match LOG_LEVELS environment with
      | JSLookup.strVal s => LogLevelResult.level s
      | JSLookup.inherited => LogLevelResult.nonStringValue
      | JSLookup.undef => LogLevelResult.level "info"

/-- Claim C6, counterexample: the environment "constructor" is not in the
level table, yet it does not resolve to "info" — the bracket lookup finds
the truthy `Object.prototype.constructor` on the prototype chain and `||`
keeps that non-string value. -/
theorem logLevelFor_proto_counterexample :
    logLevelFor (some "constructor") = LogLevelResult.nonStringValue ∧
    LogLevelResult.nonStringValue ≠ LogLevelResult.level "info" := by
  constructor
  · rfl
  · decide

/-- Claim C6 (amended): development → debug, test → info, staging → warn,
production → error, and a missing or unrecognized environment resolves to
info — unless the environment names a property inherited from
`Object.prototype` (constructor, toString, __proto__, ...), in which case
the lookup yields that truthy non-string value and the info fallback does
not apply. -/
theorem logLevelFor_table :
    logLevelFor (some "development") = LogLevelResult.level "debug" ∧
    logLevelFor (some "test") = LogLevelResult.level "info" ∧
    logLevelFor (some "staging") = LogLevelResult.level "warn" ∧
    logLevelFor (some "production") = LogLevelResult.level "error" ∧
    logLevelFor none = LogLevelResult.level "info" ∧
    (∀ environment : String,
      environment ∉ (["development", "test", "staging", "production"] : List String) →
      environment ∉ OBJECT_PROTOTYPE_KEYS →
      logLevelFor (some environment) = LogLevelResult.level "info") ∧
    (∀ environment : String,
      environment ∈ OBJECT_PROTOTYPE_KEYS →
      logLevelFor (some environment) = LogLevelResult.nonStringValue) := by
  refine ⟨rfl, rfl, rfl, rfl, rfl, ?_, ?_⟩
  · intro environment he hp
    simp only [List.mem_cons, List.not_mem_nil, or_false, not_or] at he
    obtain ⟨h1, h2, h3, h4⟩ := he
    simp [logLevelFor, LOG_LEVELS, h1, h2, h3, h4, hp]
  · intro environment hp
    simp only [OBJECT_PROTOTYPE_KEYS, List.mem_cons, List.not_mem_nil, or_false] at hp
    rcases hp with rfl | rfl | rfl | rfl | rfl | rfl | rfl | rfl | rfl | rfl | rfl | rfl <;> rfl

/-- Witness for `logLevelFor_table`: the unknown environment "qa"
resolves to "info", while the prototype property name "toString" yields
the non-string inherited value. -/
theorem logLevelFor_table_witness :
    logLevelFor (some "qa") = LogLevelResult.level "info" ∧
    logLevelFor (some "toString") = LogLevelResult.nonStringValue :=
  ⟨logLevelFor_table.2.2.2.2.2.1 "qa" (by decide) (by decide),
   logLevelFor_table.2.2.2.2.2.2 "toString" (by decide)⟩

/-- Civil date (year, month 1–12, day 1–31) of a count of days since the
Unix epoch 1970-01-01, by the standard Gregorian-calendar algorithm.  This
models the ECMAScript `Date` field decomposition used by `getFullYear`,
`getMonth` and `getDate` in `src/elk-logger.js`, with the configured time
zone taken as UTC (offset zero).  `Int` division here is Euclidean, which
on the non-negative intermediate quantities below agrees with the
truncating division of the reference algorithm, and on `z` itself is the
required floor division. -/
def civilFromDays (days : Int) : Int × Int × Int :=
  let z := days + 719468
  let era := z / 146097
  let doe := z % 146097
  let yoe := (doe - doe / 1460 + doe / 36524 - doe / 146096) / 365
  let y := yoe + era * 400
  let doy := doe - (365 * yoe + yoe / 4 - yoe / 100)
  let mp := (5 * doy + 2) / 153
  let d := doy - (153 * mp + 2) / 5 + 1
  let m := if mp < 10 then mp + 3 else mp - 9
  (if m ≤ 2 then y + 1 else y, m, d)

/-- The (fullYear, month 1–12, dayOfMonth) fields of `new Date(ms)` for a
valid epoch-milliseconds timestamp, in UTC.  ECMAScript computes the day
from the time value by floor division by 86 400 000 ms. -/
def jsDateParts (ms : Int) : Int × Int × Int :=
  civilFromDays (ms / 86400000)

/-- A JavaScript number that is either an integer or `NaN` (`none`).
`new Date(invalid)` has time value `NaN` and all its getters return
`NaN`; arithmetic propagates `NaN`. -/
def jsNumToString : Option Int → String
  | none => "NaN"
  | some n => toString n

/-- `String.prototype.padStart(2, "0")`: left-pad with `'0'` to length 2;
a string already of length ≥ 2 (such as "NaN") is returned unchanged. -/
def padStart2 (s : String) : String :=
  if s.length < 2 then String.mk (List.replicate (2 - s.length) '0') ++ s else s

/-- `date.getFullYear()` for a timestamp that is `NaN` (`none`) or valid. -/
def getFullYear (t : Option Int) : Option Int :=
  t.map (fun ms => (jsDateParts ms).1)

/-- `date.getMonth()` (0-based month) for a `NaN` or valid timestamp. -/
def getMonth (t : Option Int) : Option Int :=
  t.map (fun ms => (jsDateParts ms).2.1 - 1)

/-- `date.getDate()` (day of month) for a `NaN` or valid timestamp. -/
def getDate (t : Option Int) : Option Int :=
  t.map (fun ms => (jsDateParts ms).2.2)

/-- `getIndexFromLogTime` from `src/elk-logger.js`: builds
`logstash-${year}.${month}.${day}` where `year = date.getFullYear()`
(rendered with no padding), `month = String(date.getMonth() + 1).padStart(2, "0")`
and `day = String(date.getDate()).padStart(2, "0")`.  The argument is the
time value of `new Date(logTime)`: `none` when `logTime` does not parse as
a date. -/
def getIndexFromLogTime (logTime : Option Int) : String :=
  let year := jsNumToString (getFullYear logTime)
  let month := padStart2 (jsNumToString ((getMonth logTime).map (· + 1)))
  let day := padStart2 (jsNumToString (getDate logTime))
  "logstash-" ++ year ++ "." ++ month ++ "." ++ day

/-- Claim C5, counterexample: the timestamp -62003923200000 ms (the
calendar date 0005-03-05 UTC) yields the key "logstash-5.03.05", whose
year component is a single digit — the year is rendered unpadded, so the
key is not always of the four-digit-year form logstash-YYYY.MM.DD. -/
theorem getIndexFromLogTime_year_unpadded :
    getIndexFromLogTime (some (-62003923200000)) = "logstash-5.03.05" ∧
    getIndexFromLogTime (some (-62003923200000)) ≠ "logstash-0005.03.05" := by
  constructor
  · decide
  · decide

/-- The month and day fields of the civil-date decomposition always lie
in 1–12 and 1–31 respectively. -/
theorem civilFromDays_month_day_bounds (z : Int) :
    1 ≤ (civilFromDays z).2.1 ∧ (civilFromDays z).2.1 ≤ 12 ∧
    1 ≤ (civilFromDays z).2.2 ∧ (civilFromDays z).2.2 ≤ 31 := by
  simp only [civilFromDays]
  split <;> omega

/-- Rendering an integer in 1–31 and left-padding to width 2 always
produces exactly two characters. -/
theorem padStart2_two_digits (n : Int) (h1 : 1 ≤ n) (h2 : n ≤ 31) :
    (padStart2 (jsNumToString (some n))).length = 2 := by
  interval_cases n <;> decide

/-- Claim C5 (amended): the IndexPartitionKey is determined solely by the
calendar date (year, month, day) of the timestamp — any two timestamps
with the same date fields get an identical key — rendered as
logstash-<year>.MM.DD with two-digit zero-padded month and day and the
year unpadded; the timestamp 2024-03-05T10:00:00Z (epoch ms
1709632800000) yields logstash-2024.03.05. -/
theorem getIndexFromLogTime_date_determined :
    (∀ t1 t2 : Int, jsDateParts t1 = jsDateParts t2 →
      getIndexFromLogTime (some t1) = getIndexFromLogTime (some t2)) ∧
    (∀ ms : Int,
      (padStart2 (jsNumToString ((getMonth (some ms)).map (· + 1)))).length = 2) ∧
    (∀ ms : Int,
      (padStart2 (jsNumToString (getDate (some ms)))).length = 2) ∧
    getIndexFromLogTime (some 1709632800000) = "logstash-2024.03.05" := by
  refine ⟨?_, ?_, ?_, by decide⟩
  · intro t1 t2 h
    simp only [getIndexFromLogTime, getFullYear, getMonth, getDate, Option.map_some', h]
  · intro ms
    have hb := civilFromDays_month_day_bounds (ms / 86400000)
    simp only [getMonth, jsDateParts, Option.map_some']
    have hm : (civilFromDays (ms / 86400000)).2.1 - 1 + 1
        = (civilFromDays (ms / 86400000)).2.1 := by ring
    rw [hm]
    exact padStart2_two_digits _ hb.1 (le_trans hb.2.1 (by norm_num))
  · intro ms
    have hb := civilFromDays_month_day_bounds (ms / 86400000)
    simp only [getDate, jsDateParts, Option.map_some']
    exact padStart2_two_digits _ hb.2.2.1 hb.2.2.2

/-- Witness for `getIndexFromLogTime_date_determined`: the timestamps
2024-03-05T10:00:00Z and 2024-03-05T15:00:00Z fall on the same calendar
day and get the same key. -/
theorem getIndexFromLogTime_date_determined_witness :
    getIndexFromLogTime (some 1709632800000) = getIndexFromLogTime (some 1709650800000) :=
  getIndexFromLogTime_date_determined.1 1709632800000 1709650800000 (by decide)

/-- Claim C9: for a timestamp that does not parse as a valid date (the
`NaN` time value), `getIndexFromLogTime` still returns a string without
throwing, namely "logstash-NaN.NaN.NaN": `getFullYear`/`getMonth`/`getDate`
return `NaN`, `NaN + 1` is `NaN`, `String(NaN)` is "NaN", and
`padStart(2, "0")` leaves the three-character "NaN" unchanged. -/
theorem getIndexFromLogTime_invalid_date :
    getIndexFromLogTime none = "logstash-NaN.NaN.NaN" := by decide

/-- The request data the middleware reads from its context: `req.method`,
`req.url`, and the "user-agent" header (`Headers.get` returns the header
value or `null`, hence `Option`). -/
structure RequestCtx where
  method : String
  url : String
  userAgent : Option String

/-- The response object resolved by `context.next()`.  Besides the status
code it carries an opaque body so that "returned unchanged" is about the
very same object, not merely one with an equal status. -/
structure Response where
  status : Int
  body : String
deriving DecidableEq, Repr

/-- The error object a downstream handler may throw: `message`, `stack`,
`constructor.name`, and an opaque extra field so that "re-raised
unchanged" is about the very same object. -/
structure JSError where
  message : String
  stack : String
  ctorName : String
  extra : String
deriving DecidableEq, Repr

/-- `context.req.headers.get("user-agent")` as a `JSVal`: the header
string, or `null` when the header is absent. -/
def jsValOfUA : Option String → JSVal
  | some s => JSVal.str s
  | none => JSVal.nullv

/-- `responseLoggerMiddleware` from `src/response-logger-middleware.js`.
`startTime` and `endTime` are the two `Date.now()` readings (at entry and
when the downstream handler settles); `downstream` is the outcome of
`await context.next()`: a resolved `Response` or a thrown `JSError`.  The
result pairs the list of `elkLogger` calls the middleware emits with what
it returns to its caller: the response, or the re-thrown error. -/
def responseLoggerMiddleware (ctx : RequestCtx) (startTime endTime : Int)
    (downstream : Except JSError Response) :
    List LogCall × Except JSError Response :=
  match downstream with
  | Except.error e =>
      ([logError "UnhandledError"
          [("error", JSVal.str e.message),
           ("stack", JSVal.str e.stack),
           ("url", JSVal.str ctx.url),
           ("method", JSVal.str ctx.method.toUpper),
           ("userAgent", jsValOfUA ctx.userAgent),
           ("context", JSVal.obj
             [("errorType", JSVal.str e.ctorName),
              ("duration", JSVal.num (endTime - startTime))])]],
       Except.error e)
  | Except.ok response =>
      let duration := endTime - startTime
      let status := response.status
      let logData : List (String × JSVal) :=
        [("message", JSVal.str (ctx.method.toUpper ++ " " ++ ctx.url ++ " - " ++ toString status)),
         ("method", JSVal.str ctx.method.toUpper),
         ("url", JSVal.str ctx.url),
         ("status", JSVal.num status),
         ("duration", JSVal.num duration),
         ("userAgent", jsValOfUA ctx.userAgent)]
      ([if 500 ≤ status then logError "ResponseError" logData
        else if 400 ≤ status then logWarn "ResponseWarning" logData
        else logInfo "ResponseSuccess" logData],
       Except.ok response)

/-- Claim C1: for every request, the middleware emits exactly one log
call — never zero and never two — whether the downstream handler returns
a response or raises. -/
theorem responseLoggerMiddleware_one_log (ctx : RequestCtx) (startTime endTime : Int)
    (downstream : Except JSError Response) :
    (responseLoggerMiddleware ctx startTime endTime downstream).1.length = 1 := by
  cases downstream <;> rfl

/-- Claim C2: the middleware classifies every downstream response by
status code: status ≥ 500 emits an error-severity call tagged
ResponseError, 400 ≤ status < 500 a warn-severity call tagged
ResponseWarning, and status < 400 an info-severity call tagged
ResponseSuccess (each tag under its severity-dependent category key). -/
theorem responseLoggerMiddleware_status_classes (ctx : RequestCtx)
    (startTime endTime : Int) (response : Response) :
    (500 ≤ response.status →
      (responseLoggerMiddleware ctx startTime endTime (Except.ok response)).1.map
          (fun c => (c.severity, getProp c.data "errorType"))
        = [(Severity.error, some (JSVal.str "ResponseError"))]) ∧
    (400 ≤ response.status → response.status < 500 →
      (responseLoggerMiddleware ctx startTime endTime (Except.ok response)).1.map
          (fun c => (c.severity, getProp c.data "warningType"))
        = [(Severity.warn, some (JSVal.str "ResponseWarning"))]) ∧
    (response.status < 400 →
      (responseLoggerMiddleware ctx startTime endTime (Except.ok response)).1.map
          (fun c => (c.severity, getProp c.data "infoType"))
        = [(Severity.info, some (JSVal.str "ResponseSuccess"))]) := by
  refine ⟨fun h5 => ?_, fun h4 h5 => ?_, fun h4 => ?_⟩
  · simp only [responseLoggerMiddleware]
    rw [if_pos h5]
    rfl
  · simp only [responseLoggerMiddleware]
    rw [if_neg (by omega), if_pos h4]
    rfl
  · simp only [responseLoggerMiddleware]
    rw [if_neg (by omega), if_neg (by omega)]
    rfl

/-- Witness for `responseLoggerMiddleware_status_classes`: a 503 response
produces exactly the error-severity ResponseError call. -/
theorem responseLoggerMiddleware_status_classes_witness :
    (responseLoggerMiddleware ⟨"get", "/foo", some "curl"⟩ 0 7
        (Except.ok ⟨503, "oops"⟩)).1.map
        (fun c => (c.severity, getProp c.data "errorType"))
      = [(Severity.error, some (JSVal.str "ResponseError"))] :=
  (responseLoggerMiddleware_status_classes ⟨"get", "/foo", some "curl"⟩ 0 7
    ⟨503, "oops"⟩).1 (by decide)

/-- Claim C3: when the downstream handler raises, the middleware emits
exactly one error-severity call tagged UnhandledError whose data carries
the error message, the stack, the URL, the uppercased method, the
user-agent header, and (nested under `context`) the elapsed duration —
and then re-raises the very same error object to its caller. -/
theorem responseLoggerMiddleware_error_path (ctx : RequestCtx)
    (startTime endTime : Int) (e : JSError) :
    (responseLoggerMiddleware ctx startTime endTime (Except.error e)).2
      = Except.error e ∧
    ∃ c : LogCall,
      (responseLoggerMiddleware ctx startTime endTime (Except.error e)).1 = [c] ∧
      c.severity = Severity.error ∧
      getProp c.data "errorType" = some (JSVal.str "UnhandledError") ∧
      getProp c.data "error" = some (JSVal.str e.message) ∧
      getProp c.data "stack" = some (JSVal.str e.stack) ∧
      getProp c.data "url" = some (JSVal.str ctx.url) ∧
      getProp c.data "method" = some (JSVal.str ctx.method.toUpper) ∧
      getProp c.data "userAgent" = some (jsValOfUA ctx.userAgent) ∧
      ∃ contextFields,
        getProp c.data "context" = some (JSVal.obj contextFields) ∧
        getProp contextFields "duration" = some (JSVal.num (endTime - startTime)) := by
  refine ⟨rfl, ?_⟩
  refine ⟨_, rfl, rfl, rfl, rfl, rfl, rfl, rfl, rfl, ?_⟩
  exact ⟨_, rfl, rfl⟩

/-- Claim C7: for every downstream response (in any status class) the
emitted call's data includes the summary message
"<METHOD> <URL> - <STATUS>" with the method uppercased, plus the method,
URL, status, elapsed duration and user-agent header, and the middleware
returns the downstream response object unchanged to its caller. -/
theorem responseLoggerMiddleware_response_fields (ctx : RequestCtx)
    (startTime endTime : Int) (response : Response) :
    (responseLoggerMiddleware ctx startTime endTime (Except.ok response)).2
      = Except.ok response ∧
    (responseLoggerMiddleware ctx startTime endTime (Except.ok response)).1.map
        (fun c =>
          (getProp c.data "message", getProp c.data "method", getProp c.data "url",
           getProp c.data "status", getProp c.data "duration",
           getProp c.data "userAgent"))
      = [(some (JSVal.str
            (ctx.method.toUpper ++ " " ++ ctx.url ++ " - " ++ toString response.status)),
          some (JSVal.str ctx.method.toUpper),
          some (JSVal.str ctx.url),
          some (JSVal.num response.status),
          some (JSVal.num (endTime - startTime)),
          some (jsValOfUA ctx.userAgent))] := by
  refine ⟨rfl, ?_⟩
  by_cases h5 : 500 ≤ response.status
  · simp only [responseLoggerMiddleware]
    rw [if_pos h5]
    rfl
  · by_cases h4 : 400 ≤ response.status
    · simp only [responseLoggerMiddleware]
      rw [if_neg h5, if_pos h4]
      rfl
    · simp only [responseLoggerMiddleware]
      rw [if_neg h5, if_neg h4]
      rfl

/-- Claim C4, counterexample: calling `logError` with category
"ResponseError" and a payload that itself carries an `errorType` key
yields a merged object whose `errorType` is the payload's value, not the
caller-supplied category tag — the payload spread follows the category
key, so the payload wins. -/
theorem logError_category_overwritten :
    getProp (logError "ResponseError" [("errorType", JSVal.str "Spoofed")]).data
        "errorType"
      = some (JSVal.str "Spoofed") ∧
    some (JSVal.str "Spoofed") ≠ some (JSVal.str "ResponseError") := by
  refine ⟨rfl, ?_⟩
  intro h
  injection h with h1
  injection h1 with h2
  exact absurd h2 (by decide)

/-- Claim C4 (amended): in every one of the four log functions the
payload keys are spread after the severity-dependent category key, so on
a collision the payload wins: the merged object's `errorType`
(`warningType`, `infoType`, `debugType`) is the payload's (last) value
under that key when the payload has one, and the caller-supplied category
tag only otherwise. -/
theorem log_payload_wins :
    (∀ (categoryTag : String) (payload : List (String × JSVal)),
      getProp (logError categoryTag payload).data "errorType"
        = some ((getProp payload "errorType").getD (JSVal.str categoryTag))) ∧
    (∀ (categoryTag : String) (payload : List (String × JSVal)),
      getProp (logWarn categoryTag payload).data "warningType"
        = some ((getProp payload "warningType").getD (JSVal.str categoryTag))) ∧
    (∀ (categoryTag : String) (payload : List (String × JSVal)),
      getProp (logInfo categoryTag payload).data "infoType"
        = some ((getProp payload "infoType").getD (JSVal.str categoryTag))) ∧
    (∀ (categoryTag : String) (payload : List (String × JSVal)),
      getProp (logDebug categoryTag payload).data "debugType"
        = some ((getProp payload "debugType").getD (JSVal.str categoryTag))) := by
  refine ⟨fun tag payload => ?_, fun tag payload => ?_,
    fun tag payload => ?_, fun tag payload => ?_⟩
  · cases h : getProp payload "errorType" <;> simp [logError, getProp, h]
  · cases h : getProp payload "warningType" <;> simp [logWarn, getProp, h]
  · cases h : getProp payload "infoType" <;> simp [logInfo, getProp, h]
  · cases h : getProp payload "debugType" <;> simp [logDebug, getProp, h]

/-- A delivery-outcome event of the `pino-elasticsearch` stream, named
after the four events `src/elk-logger.js` registers handlers for. -/
inductive ElkStreamEvent where
  | insertError (payload : JSVal)
  | unknown (payload : JSVal)
  | insert (payload : JSVal)
  | error (payload : JSVal)

/-- What a delivery-outcome handler may do with an outcome: write it to
the console (`console.log`), raise it to a caller, or feed it back into
the shared `elkLogger` (and hence into the elasticsearch stream itself). -/
inductive SinkEffect where
  | consoleLog (tag : String) (payload : JSVal)
  | raiseToCaller (payload : JSVal)
  | elkLoggerWrite (call : LogCall)

/-- Whether the effect is a `console.log` write. -/
def SinkEffect.isConsoleLog : SinkEffect → Bool
  | SinkEffect.consoleLog _ _ => true
  | _ => false

/-- Whether the effect raises the outcome to a caller. -/
def SinkEffect.isRaiseToCaller : SinkEffect → Bool
  | SinkEffect.raiseToCaller _ => true
  | _ => false

/-- Whether the effect routes the outcome back through `elkLogger`. -/
def SinkEffect.isElkLoggerWrite : SinkEffect → Bool
  | SinkEffect.elkLoggerWrite _ => true
  | _ => false

/-- The outcome handlers `src/elk-logger.js` registers on
`streamToElasticSearch`: each of the four events is handled by a
`console.log` with a fixed tag ("ELK INSERTERROR", "ELK UNKNOWN",
"ELK INSERT", "ELK ERROR") and the event payload. -/
def streamToElasticSearchOn : ElkStreamEvent → SinkEffect
  | ElkStreamEvent.insertError e => SinkEffect.consoleLog "ELK INSERTERROR" e
  | ElkStreamEvent.unknown e => SinkEffect.consoleLog "ELK UNKNOWN" e
  | ElkStreamEvent.insert e => SinkEffect.consoleLog "ELK INSERT" e
  | ElkStreamEvent.error e => SinkEffect.consoleLog "ELK ERROR" e

/-- Claim C8: every delivery outcome of the elasticsearch stream (insert
success, insert error, unknown result, transport error) is handled by a
plain `console.log` — it is never raised to a caller and never routed back
through the `elkLogger` sink it came from. -/
theorem streamToElasticSearch_outcomes_logged_locally :
    ∀ ev : ElkStreamEvent,
      (streamToElasticSearchOn ev).isConsoleLog = true ∧
      (streamToElasticSearchOn ev).isRaiseToCaller = false ∧
      (streamToElasticSearchOn ev).isElkLoggerWrite = false := by
  intro ev
  cases ev <;> exact ⟨rfl, rfl, rfl⟩

/-- Claim C10: the category tag is stored under a severity-dependent key:
`logError` writes it as the first entry under `errorType`, `logWarn` under
`warningType`, `logInfo` under `infoType` and `logDebug` under
`debugType`, and these four key names are pairwise distinct. -/
theorem category_key_severity_dependent :
    (∀ ty d, (logError ty d).severity = Severity.error ∧
      (logError ty d).data.head? = some ("errorType", JSVal.str ty)) ∧
    (∀ ty d, (logWarn ty d).severity = Severity.warn ∧
      (logWarn ty d).data.head? = some ("warningType", JSVal.str ty)) ∧
    (∀ ty d, (logInfo ty d).severity = Severity.info ∧
      (logInfo ty d).data.head? = some ("infoType", JSVal.str ty)) ∧
    (∀ ty d, (logDebug ty d).severity = Severity.debug ∧
      (logDebug ty d).data.head? = some ("debugType", JSVal.str ty)) ∧
    (["errorType", "warningType", "infoType", "debugType"] : List String).Nodup :=
  ⟨fun _ _ => ⟨rfl, rfl⟩, fun _ _ => ⟨rfl, rfl⟩, fun _ _ => ⟨rfl, rfl⟩,
   fun _ _ => ⟨rfl, rfl⟩, by decide⟩
